import Mathlib

/-!
# Verification of the source-chat-relay server (`server/relay/relay.go`)

Shallow embedding of the relay server's routing, packet dispatch and
authentication logic.  The relay source (`relay.go`) is embedded directly;
its collaborators (wire codec, identity store, content filter, frame
encoder) are either taken as parameters or modelled from the specification,
as marked on each definition.
-/

namespace Relay

/-- Identity record (`entity.Entity`): the durable record binding an
authentication token (`id`) to a display name and channel subscriptions. -/
structure Entity where
  id : String
  displayName : String
  receiveChannels : List Int
  sendChannels : List Int
  deriving DecidableEq, Repr

/-- Message type tag of a decoded frame (`protocol.Message*` constants). -/
inductive MsgType where
  | authenticate
  | chat
  | event
  | other
  deriving DecidableEq, Repr

/-- A routed Deliverable message: type tag, author identity id, author
hostname, and payload text (`base.SenderID`, `base.Hostname`,
`message.Content()`). -/
structure Message where
  type : MsgType
  senderID : String
  hostname : String
  content : String
  deriving DecidableEq, Repr

/-- One connected client (`RelayClient`): identity binding (`ID`,
`Hostname`) and its outbound mailbox.  The mailbox (`Data`, a channel of
byte frames) is modelled as the list of enqueued encoded frames together
with a capacity bound; a non-blocking enqueue succeeds exactly when the
mailbox still has spare capacity.  `dataClosed` records that `close(Data)`
was called. -/
structure RelayClient where
  id : String
  hostname : String
  data : List (List Nat)
  dataCap : Nat
  dataClosed : Bool
  deriving DecidableEq, Repr

/-- `RelayClient.Authenticated`: the connection is authenticated iff its
bound identity id is non-empty (`len(c.ID) != 0`). -/
def RelayClient.Authenticated (c : RelayClient) : Bool :=
  c.id.length != 0

/-- Modelled from the spec: identity store lookup `get(id)`; the store is
the list of identity records, keyed by `id`.  A `none` result corresponds
to `sql.ErrNoRows`; transient store errors other than not-found are not
modelled (the relay only logs them and proceeds). -/
def findEntity (recs : List Entity) (tok : String) : Option Entity :=
  recs.find? (fun e => e.id == tok)

/-- Modelled from the spec: `set_display_name` on the identity store —
updates the `display_name` of the record whose id is `tok`, touching no
other field and no other record. -/
def setDisplayName (recs : List Entity) (tok name : String) : List Entity :=
  recs.map (fun e => if e.id = tok then { e with displayName := name } else e)

/-- Modelled from the spec: a message carries a set of target channel
identifiers derived from the author's identity record (its
`send_channels`), not from client-supplied data
(`entity.DeliverableSendChannels`). -/
def DeliverableSendChannels (recs : List Entity) (m : Message) : List Int :=
  match findEntity recs m.senderID with
  | some e => e.sendChannels
  | none => []

/-- Modelled from the spec: `receive_channels` intersects the target
channel set — non-empty set intersection, any shared channel id qualifies
(`entity.ReceiveIntersectsWith`). -/
def Entity.ReceiveIntersectsWith (e : Entity) (chans : List Int) : Bool :=
  e.receiveChannels.any (fun ch => chans.contains ch)

/-- One recipient's treatment during fan-out (`StartRouting`'s loop body,
relay.go 68–84), for a client currently in the registry:
`entity.GetEntity(client.ID)` failing skips the client (`continue`);
an eligible recipient (distinct identity id, intersecting channels) gets a
non-blocking enqueue of the encoded message; on mailbox overflow the
client is evicted (`none`). `marshal` is the wire codec's
`message.Marshal()`. -/
def deliverTo (recs : List Entity) (marshal : Message → List Nat)
    (m : Message) (c : RelayClient) : Option RelayClient :=
  match findEntity recs c.id with
  | none => some c
  | some t =>
    if (c.id != m.senderID) && t.ReceiveIntersectsWith (DeliverableSendChannels recs m) then
      if c.data.length < c.dataCap then
        some { c with data := c.data ++ [marshal m] }
      else
        none
    else
      some c

/-- The registry after fanning one message out to every client
(relay.go 68–84): evicted clients are deleted from the registry. -/
def fanout (recs : List Entity) (marshal : Message → List Nat)
    (m : Message) (clients : List RelayClient) : List RelayClient :=
  clients.filterMap (deliverTo recs marshal m)

/-- The clients evicted while fanning one message out: each has its
mailbox closed (`close(client.Data)`) before deletion from the registry. -/
def evictedBy (recs : List Entity) (marshal : Message → List Nat)
    (m : Message) (clients : List RelayClient) : List RelayClient :=
  (clients.filter (fun c => (deliverTo recs marshal m c).isNone)).map
    (fun c => { c with dataClosed := true })

/-- Outcome of handling one message taken from the Router queue. -/
structure RouteOutcome where
  clients : List RelayClient
  evicted : List RelayClient
  bot : List Message
  halted : Bool
  deriving DecidableEq, Repr

/-- Handling of one message by the routing loop (relay.go 62–88):
a content-filter hit (`filter.IsInFilter(message.Content())`) makes
`StartRouting` return — nothing is delivered, nothing is pushed to the
bot channel, and the loop halts.  Otherwise the message is fanned out to
the registry and then pushed to the bot channel. -/
def routeMessage (recs : List Entity) (marshal : Message → List Nat)
    (fil : String → Bool) (m : Message) (clients : List RelayClient) : RouteOutcome :=
  if fil m.content then
    { clients := clients, evicted := [], bot := [], halted := true }
  else
    { clients := fanout recs marshal m clients
      evicted := evictedBy recs marshal m clients
      bot := [m]
      halted := false }

/-- The routing loop (`StartRouting`, relay.go 59–90) run over a queue of
submitted messages, in submission order.  Returns the final registry, the
messages pushed to the bot channel in order, and the suffix of submitted
messages left unprocessed because the loop returned early. -/
def StartRouting (recs : List Entity) (marshal : Message → List Nat)
    (fil : String → Bool) :
    List Message → List RelayClient → List RelayClient × List Message × List Message
  | [], clients => (clients, [], [])
  | m :: ms, clients =>
    let o := routeMessage recs marshal fil m clients
    if o.halted then
      (clients, [], ms)
    else
      let r := StartRouting recs marshal fil ms o.clients
      (r.1, o.bot ++ r.2.1, r.2.2)

/-- Modelled from the spec: the wire codec's decoded views of one inbound
frame.  `decode_header` yields the type tag and the client-supplied
`senderID`/`hostname` header fields; `decode_authenticate` yields
`token`/`authHostname`; `decode_chat`/`decode_event` yield the payload. -/
structure Frame where
  type : MsgType
  senderID : String
  hostname : String
  token : String
  authHostname : String
  payload : String
  deriving DecidableEq, Repr

/-- Authentication handshake response (`protocol.AuthenticateDenied` /
`protocol.AuthenticateSuccess`). -/
inductive AuthResponse where
  | denied
  | success
  deriving DecidableEq, Repr

/-- Result of `AuthenticateClient`: the identity store afterwards and the
(possibly re-bound) connection. -/
structure AuthResult where
  recs : List Entity
  client : RelayClient
  deriving DecidableEq, Repr

/-- `AuthenticateClient` (relay.go 209–230).  Looks the token up in the
identity store; on `ErrNoRows` inserts a fresh record `{ID: token}` and, if
that insert fails (`insertErr`), logs and returns without binding the
connection; otherwise sets the record's display name to the supplied
hostname and binds the connection (`c.ID = token`, `c.Hostname =
hostname`). -/
def AuthenticateClient (insertErr : String → Bool) (recs : List Entity)
    (c : RelayClient) (token hostname : String) : AuthResult :=
  match findEntity recs token with
  | none =>
    if insertErr token then
      { recs := recs, client := c }
    else
      let recs := recs ++ [{ id := token, displayName := ""
                             receiveChannels := [], sendChannels := [] }]
      { recs := setDisplayName recs token hostname
        client := { c with id := token, hostname := hostname } }
  | some _ =>
    { recs := setDisplayName recs token hostname
      client := { c with id := token, hostname := hostname } }

/-- Result of `HandlePacket`: the (possibly re-bound) connection, whether
it was removed from the registry and its transport closed, the
authentication responses written to the client's transport, the messages
submitted to the Router, and the identity store afterwards. -/
structure HandleResult where
  client : RelayClient
  removed : Bool
  responses : List AuthResponse
  routed : List Message
  recs : List Entity
  deriving DecidableEq, Repr

/-- `HandlePacket` (relay.go 151–196).  Authenticate frames are handled
regardless of authentication state: empty token or hostname draws a
Denied response with no further effect; otherwise `AuthenticateClient`
runs and a Success response is written unconditionally.  Any other frame
is silently discarded when unauthenticated; when authenticated, chat and
event frames have their author fields overwritten from the connection's
binding (`base.SenderID = client.ID; base.Hostname = client.Hostname`) and
are submitted to the Router; any other type removes the client. -/
def HandlePacket (insertErr : String → Bool) (recs : List Entity)
    (c : RelayClient) (f : Frame) : HandleResult :=
  if f.type = .authenticate then
    if f.token.length == 0 || f.authHostname.length == 0 then
      { client := c, removed := false, responses := [.denied], routed := [], recs := recs }
    else
      let ar := AuthenticateClient insertErr recs c f.token f.authHostname
      { client := ar.client, removed := false, responses := [.success]
        routed := [], recs := ar.recs }
  else if !c.Authenticated then
    { client := c, removed := false, responses := [], routed := [], recs := recs }
  else
    match f.type with
    | .chat =>
      { client := c, removed := false, responses := []
        routed := [{ type := .chat, senderID := c.id, hostname := c.hostname
                     content := f.payload }]
        recs := recs }
    | .event =>
      { client := c, removed := false, responses := []
        routed := [{ type := .event, senderID := c.id, hostname := c.hostname
                     content := f.payload }]
        recs := recs }
    | _ =>
      { client := c, removed := true, responses := [], routed := [], recs := recs }

/-- A concrete frame encoder, standing in for `message.Marshal()` in
closed evaluations. -/
def exMarshal (m : Message) : List Nat :=
  m.content.data.map Char.toNat

/-! ## Helper lemmas about the identity store and per-recipient delivery -/

theorem findEntity_setDisplayName (l : List Entity) (tok name : String) :
    findEntity (setDisplayName l tok name) tok
      = (findEntity l tok).map (fun e => { e with displayName := name }) := by
  induction l with
  | nil => rfl
  | cons e l ih =>
    by_cases h : e.id = tok
    · simp [findEntity, setDisplayName, h]
    · simp only [setDisplayName, List.map_cons, if_neg h]
      unfold findEntity at ih ⊢
      rw [List.find?_cons_of_neg _ (by simpa using h),
        List.find?_cons_of_neg _ (by simpa using h)]
      simpa [setDisplayName] using ih

theorem setDisplayName_fields (l : List Entity) (tok name : String) :
    (setDisplayName l tok name).map (fun r => (r.id, r.receiveChannels, r.sendChannels))
      = l.map (fun r => (r.id, r.receiveChannels, r.sendChannels)) := by
  induction l with
  | nil => rfl
  | cons e l ih =>
    simp only [setDisplayName, List.map_cons] at ih ⊢
    by_cases h : e.id = tok
    · rw [if_pos h]
      exact congrArg (List.cons _) ih
    · rw [if_neg h]
      exact congrArg (List.cons _) ih

theorem findEntity_append_left_none (l₁ l₂ : List Entity) (tok : String)
    (h : findEntity l₁ tok = none) :
    findEntity (l₁ ++ l₂) tok = findEntity l₂ tok := by
  induction l₁ with
  | nil => rfl
  | cons e l ih =>
    unfold findEntity at h ih ⊢
    rw [List.cons_append, List.find?_cons]
    rw [List.find?_cons] at h
    cases he : e.id == tok
    · simp only [he] at h ⊢
      exact ih h
    · simp only [he] at h
      exact Option.noConfusion h

theorem deliverTo_deliver (recs : List Entity) (marshal : Message → List Nat)
    (m : Message) (b : RelayClient) (t : Entity)
    (hfind : findEntity recs b.id = some t)
    (hne : b.id ≠ m.senderID)
    (hint : t.ReceiveIntersectsWith (DeliverableSendChannels recs m) = true)
    (hroom : b.data.length < b.dataCap) :
    deliverTo recs marshal m b = some { b with data := b.data ++ [marshal m] } := by
  simp [deliverTo, hfind, hint, hroom, bne_iff_ne, hne]

theorem deliverTo_skip_noIntersect (recs : List Entity) (marshal : Message → List Nat)
    (m : Message) (b : RelayClient) (t : Entity)
    (hfind : findEntity recs b.id = some t)
    (hint : t.ReceiveIntersectsWith (DeliverableSendChannels recs m) = false) :
    deliverTo recs marshal m b = some b := by
  simp [deliverTo, hfind, hint]

theorem deliverTo_skip_self (recs : List Entity) (marshal : Message → List Nat)
    (m : Message) (b : RelayClient)
    (hself : b.id = m.senderID) :
    deliverTo recs marshal m b = some b := by
  unfold deliverTo
  cases hf : findEntity recs b.id
  · rfl
  · simp [hself]

theorem deliverTo_full (recs : List Entity) (marshal : Message → List Nat)
    (m : Message) (b : RelayClient) (t : Entity)
    (hfind : findEntity recs b.id = some t)
    (hne : b.id ≠ m.senderID)
    (hint : t.ReceiveIntersectsWith (DeliverableSendChannels recs m) = true)
    (hfull : b.dataCap ≤ b.data.length) :
    deliverTo recs marshal m b = none := by
  simp [deliverTo, hfind, hint, bne_iff_ne, hne, Nat.not_lt.mpr hfull]

theorem fanout_append (recs : List Entity) (marshal : Message → List Nat)
    (m : Message) (l₁ l₂ : List RelayClient) :
    fanout recs marshal m (l₁ ++ l₂)
      = fanout recs marshal m l₁ ++ fanout recs marshal m l₂ := by
  simp [fanout, List.filterMap_append]

/-! ## Claim theorems -/

/-- Claim C1, as stated, is false: with author "A" and a registry holding a
single recipient "B" whose identity record's `receive_channels = [1]`
intersects the message's target channel set `[1]`, and whose identity id
differs from the author, zero copies are enqueued onto B's mailbox when
B's mailbox is at capacity — the fan-out evicts B instead of enqueuing
exactly one copy. -/
theorem C1_counterexample :
    ("B" : String) ≠ "A"
    ∧ findEntity [⟨"A", "", [], [1]⟩, ⟨"B", "", [1], []⟩] "B"
        = some ⟨"B", "", [1], []⟩
    ∧ Entity.ReceiveIntersectsWith ⟨"B", "", [1], []⟩
        (DeliverableSendChannels [⟨"A", "", [], [1]⟩, ⟨"B", "", [1], []⟩]
          ⟨.chat, "A", "hA", "hi"⟩) = true
    ∧ fanout [⟨"A", "", [], [1]⟩, ⟨"B", "", [1], []⟩] exMarshal
        ⟨.chat, "A", "hA", "hi"⟩ [⟨"B", "h", [], 0, false⟩] = [] := by
  decide

/-- Claim C1 (amended): for every connection B in the registry whose
identity record is found in the store, with an identity id different from
the message's author id: if B's `receive_channels` intersect the message's
target channel set and B's mailbox has spare capacity, exactly one encoded
copy of the message is enqueued onto B's mailbox; if the intersection is
empty, zero copies are enqueued; and no copy is ever enqueued onto a
connection whose bound identity id equals the author's, regardless of
channel overlap. -/
theorem C1_fanout_delivery (recs : List Entity) (marshal : Message → List Nat)
    (m : Message) (l₁ l₂ : List RelayClient) (b : RelayClient) (t : Entity)
    (hfind : findEntity recs b.id = some t) :
    (b.id ≠ m.senderID →
      t.ReceiveIntersectsWith (DeliverableSendChannels recs m) = true →
      b.data.length < b.dataCap →
      fanout recs marshal m (l₁ ++ b :: l₂)
        = fanout recs marshal m l₁
            ++ { b with data := b.data ++ [marshal m] } :: fanout recs marshal m l₂)
    ∧ (t.ReceiveIntersectsWith (DeliverableSendChannels recs m) = false →
      fanout recs marshal m (l₁ ++ b :: l₂)
        = fanout recs marshal m l₁ ++ b :: fanout recs marshal m l₂)
    ∧ (b.id = m.senderID →
      fanout recs marshal m (l₁ ++ b :: l₂)
        = fanout recs marshal m l₁ ++ b :: fanout recs marshal m l₂) := by
  refine ⟨fun hne hint hroom => ?_, fun hint => ?_, fun hself => ?_⟩
  · have hb := deliverTo_deliver recs marshal m b t hfind hne hint hroom
    simp [fanout, List.filterMap_append, List.filterMap_cons, hb]
  · have hb := deliverTo_skip_noIntersect recs marshal m b t hfind hint
    simp [fanout, List.filterMap_append, List.filterMap_cons, hb]
  · have hb := deliverTo_skip_self recs marshal m b hself
    simp [fanout, List.filterMap_append, List.filterMap_cons, hb]

/-- Witness for C1: a concrete recipient with intersecting channels, a
distinct identity id and spare mailbox capacity receives exactly one
encoded copy. -/
theorem C1_fanout_delivery_witness :
    fanout [⟨"A", "", [], [1]⟩, ⟨"B", "", [1], []⟩] exMarshal
        ⟨.chat, "A", "hA", "hi"⟩ [⟨"B", "h", [], 4, false⟩]
      = [⟨"B", "h", [exMarshal ⟨.chat, "A", "hA", "hi"⟩], 4, false⟩] := by
  have h := (C1_fanout_delivery [⟨"A", "", [], [1]⟩, ⟨"B", "", [1], []⟩] exMarshal
      ⟨.chat, "A", "hA", "hi"⟩ [] [] ⟨"B", "h", [], 4, false⟩ ⟨"B", "", [1], []⟩
      (by decide)).1 (by decide) (by decide) (by decide)
  simpa using h

/-- Claim C2: a message whose payload text matches the content filter is
routed with zero mailbox deliveries (the registry is unchanged, nobody is
evicted) and zero bridge (bot) submissions. -/
theorem C2_filtered_message_dropped (recs : List Entity) (marshal : Message → List Nat)
    (fil : String → Bool) (m : Message) (clients : List RelayClient)
    (h : fil m.content = true) :
    (routeMessage recs marshal fil m clients).clients = clients
    ∧ (routeMessage recs marshal fil m clients).evicted = []
    ∧ (routeMessage recs marshal fil m clients).bot = [] := by
  simp [routeMessage, h]

/-- Witness for C2: a concrete filtered message leaves the registry
untouched and submits nothing to the bot channel. -/
theorem C2_filtered_message_dropped_witness :
    (routeMessage [] exMarshal (fun s => s == "bad") ⟨.chat, "A", "hA", "bad"⟩
        [⟨"B", "h", [], 4, false⟩]).clients = [⟨"B", "h", [], 4, false⟩]
    ∧ (routeMessage [] exMarshal (fun s => s == "bad") ⟨.chat, "A", "hA", "bad"⟩
        [⟨"B", "h", [], 4, false⟩]).evicted = []
    ∧ (routeMessage [] exMarshal (fun s => s == "bad") ⟨.chat, "A", "hA", "bad"⟩
        [⟨"B", "h", [], 4, false⟩]).bot = [] :=
  C2_filtered_message_dropped [] exMarshal (fun s => s == "bad")
    ⟨.chat, "A", "hA", "bad"⟩ [⟨"B", "h", [], 4, false⟩] (by decide)

/-- Claim C3 describes the intended behavior; the code diverges: a
content-filter hit makes `StartRouting` return, so a later submitted
message is left unprocessed — here the queue `[filtered, clean]` ends with
the clean message never handled (and never forwarded to the bot
channel). -/
theorem C3_filter_halts_routing_loop :
    (StartRouting [] exMarshal (fun s => s == "bad")
        [⟨.chat, "A", "hA", "bad"⟩, ⟨.chat, "A", "hA", "ok"⟩] []).2.2
      = [⟨.chat, "A", "hA", "ok"⟩]
    ∧ (StartRouting [] exMarshal (fun s => s == "bad")
        [⟨.chat, "A", "hA", "bad"⟩, ⟨.chat, "A", "hA", "ok"⟩] []).2.1 = [] := by
  decide

/-- Claim C4: for every chat or event frame handled on an authenticated
connection, the routed message's author identity id and hostname equal the
connection's binding; and two frames agreeing on type and payload but
differing in their client-supplied sender id and hostname header fields
yield identical routed messages. -/
theorem C4_author_fields_from_binding (insertErr : String → Bool) (recs : List Entity)
    (c : RelayClient) (f : Frame)
    (hauth : c.Authenticated = true)
    (htype : f.type = .chat ∨ f.type = .event) :
    (∀ m ∈ (HandlePacket insertErr recs c f).routed,
        m.senderID = c.id ∧ m.hostname = c.hostname)
    ∧ (∀ g : Frame, g.type = f.type → g.token = f.token →
        g.authHostname = f.authHostname → g.payload = f.payload →
        (HandlePacket insertErr recs c g).routed
          = (HandlePacket insertErr recs c f).routed) := by
  rcases htype with h | h
  · constructor
    · intro m hm
      simp [HandlePacket, h, hauth] at hm
      simp [hm]
    · intro g h1 h2 h3 h4
      simp [HandlePacket, h, h1, h4, hauth]
  · constructor
    · intro m hm
      simp [HandlePacket, h, hauth] at hm
      simp [hm]
    · intro g h1 h2 h3 h4
      simp [HandlePacket, h, h1, h4, hauth]

/-- Witness for C4: a frame with spoofed client-supplied sender fields
routes the same message as a frame with empty ones, and that message's
author fields come from the connection's binding. -/
theorem C4_author_fields_from_binding_witness :
    (HandlePacket (fun _ => false) [] ⟨"tok1", "host1", [], 4, false⟩
        ⟨.chat, "spoofedID", "spoofedHost", "", "", "hello"⟩).routed
      = (HandlePacket (fun _ => false) [] ⟨"tok1", "host1", [], 4, false⟩
          ⟨.chat, "", "", "", "", "hello"⟩).routed
    ∧ (HandlePacket (fun _ => false) [] ⟨"tok1", "host1", [], 4, false⟩
          ⟨.chat, "", "", "", "", "hello"⟩).routed
        = [⟨.chat, "tok1", "host1", "hello"⟩] :=
  ⟨(C4_author_fields_from_binding (fun _ => false) []
      ⟨"tok1", "host1", [], 4, false⟩ ⟨.chat, "", "", "", "", "hello"⟩
      (by decide) (Or.inl rfl)).2
      ⟨.chat, "spoofedID", "spoofedHost", "", "", "hello"⟩ rfl rfl rfl rfl,
    by decide⟩

/-- Claim C5: when an eligible recipient's mailbox is at capacity during
fan-out, that recipient is removed from the registry and its mailbox is
closed, while every other client of the same message is processed exactly
as it would be without the overflowing recipient present. -/
theorem C5_overflow_evicts_recipient (recs : List Entity) (marshal : Message → List Nat)
    (m : Message) (l₁ l₂ : List RelayClient) (b : RelayClient) (t : Entity)
    (hfind : findEntity recs b.id = some t)
    (hne : b.id ≠ m.senderID)
    (hint : t.ReceiveIntersectsWith (DeliverableSendChannels recs m) = true)
    (hfull : b.dataCap ≤ b.data.length) :
    fanout recs marshal m (l₁ ++ b :: l₂)
        = fanout recs marshal m l₁ ++ fanout recs marshal m l₂
    ∧ evictedBy recs marshal m (l₁ ++ b :: l₂)
        = evictedBy recs marshal m l₁
            ++ { b with dataClosed := true } :: evictedBy recs marshal m l₂ := by
  have hb := deliverTo_full recs marshal m b t hfind hne hint hfull
  constructor
  · simp [fanout, List.filterMap_append, List.filterMap_cons, hb]
  · simp [evictedBy, List.filter_append, List.filter_cons, hb]

/-- Witness for C5: a full-mailbox recipient is evicted with its mailbox
closed while a second recipient of the same message is still delivered
to. -/
theorem C5_overflow_evicts_recipient_witness :
    fanout [⟨"A", "", [], [1]⟩, ⟨"B", "", [1], []⟩, ⟨"C", "", [1], []⟩] exMarshal
        ⟨.chat, "A", "hA", "hi"⟩
        [⟨"B", "hB", [], 0, false⟩, ⟨"C", "hC", [], 4, false⟩]
      = [⟨"C", "hC", [exMarshal ⟨.chat, "A", "hA", "hi"⟩], 4, false⟩]
    ∧ evictedBy [⟨"A", "", [], [1]⟩, ⟨"B", "", [1], []⟩, ⟨"C", "", [1], []⟩] exMarshal
        ⟨.chat, "A", "hA", "hi"⟩
        [⟨"B", "hB", [], 0, false⟩, ⟨"C", "hC", [], 4, false⟩]
      = [⟨"B", "hB", [], 0, true⟩] := by
  have h := C5_overflow_evicts_recipient
      [⟨"A", "", [], [1]⟩, ⟨"B", "", [1], []⟩, ⟨"C", "", [1], []⟩] exMarshal
      ⟨.chat, "A", "hA", "hi"⟩ [] [⟨"C", "hC", [], 4, false⟩]
      ⟨"B", "hB", [], 0, false⟩ ⟨"B", "", [1], []⟩
      (by decide) (by decide) (by decide) (by decide)
  constructor
  · rw [show ([⟨"B", "hB", [], 0, false⟩, ⟨"C", "hC", [], 4, false⟩]
        : List RelayClient)
      = [] ++ ⟨"B", "hB", [], 0, false⟩ :: [⟨"C", "hC", [], 4, false⟩] from rfl,
      h.1]
    decide
  · rw [show ([⟨"B", "hB", [], 0, false⟩, ⟨"C", "hC", [], 4, false⟩]
        : List RelayClient)
      = [] ++ ⟨"B", "hB", [], 0, false⟩ :: [⟨"C", "hC", [], 4, false⟩] from rfl,
      h.2]
    decide

/-- Claim C6, as stated, is false: a connection already bound to identity
"tok1" that handles a later Authenticate frame carrying token "tok2" has
its bound identity id changed to "tok2" — the binding is not immutable. -/
theorem C6_counterexample :
    RelayClient.Authenticated ⟨"tok1", "h1", [], 1, false⟩ = true
    ∧ (HandlePacket (fun _ => false) [⟨"tok1", "h1", [], []⟩]
        ⟨"tok1", "h1", [], 1, false⟩ ⟨.authenticate, "", "", "tok2", "h2", ""⟩).client.id
        = "tok2"
    ∧ ("tok2" : String) ≠ "tok1" := by
  decide

/-- Claim C6 (amended): once a connection is authenticated it never
returns to the unauthenticated state, and no frame other than a subsequent
Authenticate frame changes its binding; a later valid Authenticate frame
may, however, rebind the connection to its (non-empty) token. -/
theorem C6_no_return_to_unauthenticated (insertErr : String → Bool) (recs : List Entity)
    (c : RelayClient) (f : Frame) (hauth : c.Authenticated = true) :
    (HandlePacket insertErr recs c f).client.Authenticated = true
    ∧ (f.type ≠ .authenticate → (HandlePacket insertErr recs c f).client = c) := by
  cases hft : f.type with
  | authenticate =>
    refine ⟨?_, fun hne => absurd rfl hne⟩
    cases hg : (f.token.length == 0 || f.authHostname.length == 0) with
    | true => simp [HandlePacket, hft, hg, hauth]
    | false =>
      have htok : f.token.length ≠ 0 := by
        intro h0
        simp [h0] at hg
      simp only [HandlePacket, hft, if_pos rfl, hg, Bool.false_eq_true, if_false]
      unfold AuthenticateClient
      cases hfe : findEntity recs f.token with
      | none =>
        cases hins : insertErr f.token with
        | true => simpa [hins] using hauth
        | false => simp [hins, RelayClient.Authenticated, htok]
      | some e => simp [RelayClient.Authenticated, htok]
  | chat =>
    exact ⟨by simp [HandlePacket, hft, hauth], fun _ => by simp [HandlePacket, hft, hauth]⟩
  | event =>
    exact ⟨by simp [HandlePacket, hft, hauth], fun _ => by simp [HandlePacket, hft, hauth]⟩
  | other =>
    exact ⟨by simp [HandlePacket, hft, hauth], fun _ => by simp [HandlePacket, hft, hauth]⟩

/-- Witness for C6 (amended): an authenticated connection handling a chat
frame stays authenticated with its binding unchanged. -/
theorem C6_no_return_to_unauthenticated_witness :
    (HandlePacket (fun _ => false) [] ⟨"tok1", "h1", [], 1, false⟩
        ⟨.chat, "x", "y", "", "", "hello"⟩).client.Authenticated = true
    ∧ (HandlePacket (fun _ => false) [] ⟨"tok1", "h1", [], 1, false⟩
        ⟨.chat, "x", "y", "", "", "hello"⟩).client = ⟨"tok1", "h1", [], 1, false⟩ :=
  ⟨(C6_no_return_to_unauthenticated (fun _ => false) [] ⟨"tok1", "h1", [], 1, false⟩
      ⟨.chat, "x", "y", "", "", "hello"⟩ (by decide)).1,
    (C6_no_return_to_unauthenticated (fun _ => false) [] ⟨"tok1", "h1", [], 1, false⟩
      ⟨.chat, "x", "y", "", "", "hello"⟩ (by decide)).2 (by decide)⟩

/-- Claim C7: an Authenticate frame with empty token or empty hostname
draws a Denied response, leaves the identity store and the connection's
binding unchanged, and does not remove the connection. -/
theorem C7_empty_fields_denied (insertErr : String → Bool) (recs : List Entity)
    (c : RelayClient) (f : Frame)
    (htype : f.type = .authenticate)
    (hempty : f.token.length = 0 ∨ f.authHostname.length = 0) :
    HandlePacket insertErr recs c f
      = { client := c, removed := false, responses := [.denied], routed := []
          recs := recs } := by
  rcases hempty with h | h <;> simp [HandlePacket, htype, h]

/-- Witness for C7: a concrete empty-token Authenticate frame is denied
with no state change. -/
theorem C7_empty_fields_denied_witness :
    HandlePacket (fun _ => false) [⟨"tok1", "h1", [], []⟩] ⟨"", "", [], 1, false⟩
        ⟨.authenticate, "", "", "", "h2", ""⟩
      = { client := ⟨"", "", [], 1, false⟩, removed := false
          responses := [.denied], routed := [], recs := [⟨"tok1", "h1", [], []⟩] } :=
  C7_empty_fields_denied (fun _ => false) [⟨"tok1", "h1", [], []⟩]
    ⟨"", "", [], 1, false⟩ ⟨.authenticate, "", "", "", "h2", ""⟩ rfl (Or.inl rfl)

/-- Claim C8: authenticating a non-empty token absent from the identity
store creates a new record with that token as id (carrying the supplied
hostname as display name); if the creation fails, the store and the
connection's binding are left completely unchanged — no display-name
update happens and the connection stays unauthenticated. -/
theorem C8_absent_token_create_or_abort (insertErr : String → Bool) (recs : List Entity)
    (c : RelayClient) (token hostname : String)
    (habsent : findEntity recs token = none) :
    (insertErr token = true →
      AuthenticateClient insertErr recs c token hostname
        = { recs := recs, client := c })
    ∧ (insertErr token = false →
      findEntity (AuthenticateClient insertErr recs c token hostname).recs token
          = some { id := token, displayName := hostname
                   receiveChannels := [], sendChannels := [] }
        ∧ (AuthenticateClient insertErr recs c token hostname).client
          = { c with id := token, hostname := hostname }) := by
  constructor
  · intro hins
    simp [AuthenticateClient, habsent, hins]
  · intro hins
    simp only [AuthenticateClient, habsent, hins, Bool.false_eq_true, if_false]
    refine ⟨?_, by trivial⟩
    rw [findEntity_setDisplayName, findEntity_append_left_none _ _ _ habsent]
    simp [findEntity]

/-- Witness for C8: with a failing insert the handshake aborts with no
state change; with a working insert the fresh record is created with the
token as id and the hostname as display name. -/
theorem C8_absent_token_create_or_abort_witness :
    AuthenticateClient (fun _ => true) [] ⟨"", "", [], 1, false⟩ "tokN" "hN"
      = { recs := [], client := ⟨"", "", [], 1, false⟩ }
    ∧ findEntity (AuthenticateClient (fun _ => false) [] ⟨"", "", [], 1, false⟩
        "tokN" "hN").recs "tokN" = some ⟨"tokN", "hN", [], []⟩ :=
  ⟨(C8_absent_token_create_or_abort (fun _ => true) [] ⟨"", "", [], 1, false⟩
      "tokN" "hN" rfl).1 rfl,
    ((C8_absent_token_create_or_abort (fun _ => false) [] ⟨"", "", [], 1, false⟩
      "tokN" "hN" rfl).2 rfl).1⟩

/-- Claim C9: re-authenticating a token whose identity record already
exists mutates only that record's display name (set to the supplied
hostname); every record's id, `receive_channels` and `send_channels` are
unchanged by the authentication. -/
theorem C9_reauth_updates_display_name_only (insertErr : String → Bool) (recs : List Entity)
    (c : RelayClient) (token hostname : String) (e : Entity)
    (hfound : findEntity recs token = some e) :
    (AuthenticateClient insertErr recs c token hostname).recs
        = setDisplayName recs token hostname
    ∧ findEntity (AuthenticateClient insertErr recs c token hostname).recs token
        = some { e with displayName := hostname }
    ∧ (AuthenticateClient insertErr recs c token hostname).recs.map
          (fun r => (r.id, r.receiveChannels, r.sendChannels))
        = recs.map (fun r => (r.id, r.receiveChannels, r.sendChannels)) := by
  have h1 : (AuthenticateClient insertErr recs c token hostname).recs
      = setDisplayName recs token hostname := by
    simp [AuthenticateClient, hfound]
  refine ⟨h1, ?_, ?_⟩
  · rw [h1, findEntity_setDisplayName, hfound]
    rfl
  · rw [h1, setDisplayName_fields]

/-- Witness for C9: re-authenticating an existing token with a new
hostname rewrites only the display name, keeping channel subscriptions
intact. -/
theorem C9_reauth_updates_display_name_only_witness :
    (AuthenticateClient (fun _ => false) [⟨"tok1", "old", [1, 2], [3]⟩]
        ⟨"", "", [], 1, false⟩ "tok1" "newHost").recs
      = [⟨"tok1", "newHost", [1, 2], [3]⟩]
    ∧ findEntity (AuthenticateClient (fun _ => false) [⟨"tok1", "old", [1, 2], [3]⟩]
        ⟨"", "", [], 1, false⟩ "tok1" "newHost").recs "tok1"
      = some ⟨"tok1", "newHost", [1, 2], [3]⟩ := by
  have h := C9_reauth_updates_display_name_only (fun _ => false)
      [⟨"tok1", "old", [1, 2], [3]⟩] ⟨"", "", [], 1, false⟩ "tok1" "newHost"
      ⟨"tok1", "old", [1, 2], [3]⟩ (by decide)
  exact ⟨by rw [h.1]; decide, h.2.1⟩

/-- Claim C10: every Authenticate frame with non-empty token and non-empty
hostname draws a Success response — including the case where the record
was absent and its creation failed, leaving the connection unbound and the
store untouched. -/
theorem C10_success_response_unconditional (insertErr : String → Bool) (recs : List Entity)
    (c : RelayClient) (f : Frame)
    (htype : f.type = .authenticate)
    (htok : f.token.length ≠ 0) (hhost : f.authHostname.length ≠ 0) :
    (HandlePacket insertErr recs c f).responses = [.success]
    ∧ (findEntity recs f.token = none → insertErr f.token = true →
        (HandlePacket insertErr recs c f).client = c
        ∧ (HandlePacket insertErr recs c f).recs = recs) := by
  constructor
  · simp [HandlePacket, htype, htok, hhost]
  · intro h1 h2
    simp [HandlePacket, htype, htok, hhost, AuthenticateClient, h1, h2]

/-- Witness for C10: a concrete Authenticate frame whose record creation
fails still draws a Success response while the connection stays unbound
and the store stays empty. -/
theorem C10_success_response_unconditional_witness :
    (HandlePacket (fun _ => true) [] ⟨"", "", [], 1, false⟩
        ⟨.authenticate, "", "", "tokN", "hN", ""⟩).responses = [.success]
    ∧ (HandlePacket (fun _ => true) [] ⟨"", "", [], 1, false⟩
        ⟨.authenticate, "", "", "tokN", "hN", ""⟩).client = ⟨"", "", [], 1, false⟩
    ∧ (HandlePacket (fun _ => true) [] ⟨"", "", [], 1, false⟩
        ⟨.authenticate, "", "", "tokN", "hN", ""⟩).recs = [] := by
  have h := C10_success_response_unconditional (fun _ => true) []
      ⟨"", "", [], 1, false⟩ ⟨.authenticate, "", "", "tokN", "hN", ""⟩
      rfl (by decide) (by decide)
  exact ⟨h.1, (h.2 rfl rfl).1, (h.2 rfl rfl).2⟩

end Relay
